import Mathlib

/-!
Verification of the realm selection and world-instance connection subsystem.

Shallow embedding of the realm-selection saga (`src/unnamed/part_005`, the
dao saga) and of `LighthouseWorldInstanceConnection`
(`src/packages/shared/comms/v2/LighthouseWorldInstanceConnection.ts`),
together with theorems settling the claims about them.

Conventions of the embedding:
* JS numbers that carry finite coordinate values are modelled as `ℚ`.
* A JS value that may be `undefined`/`null` is modelled as `Option`.
* Semantic versions ("1.0.0") are modelled as `(major, minor, patch)`
  triples of naturals; the `semver` package's `gte` on plain versions is
  lexicographic comparison of the triples.
* Redux-saga effects (`select`, `call`, `yield`) are modelled by threading
  an environment record `DaoEnv` holding the selector results and the
  collaborator functions that live outside this repository
  (`resolveCommsConnectionString`, `ping`, the pick-realm algorithm).
-/

namespace Dao

/-- A parsed semantic version `major.minor.patch`. -/
structure Version where
  major : Nat
  minor : Nat
  patch : Nat
deriving DecidableEq, Repr

/-- Models `semver.gte a b`: `a ≥ b` in lexicographic order on
`(major, minor, patch)` (the `semver` package's `gte` restricted to plain
versions, which is how the repository uses it). -/
def semverGte (a b : Version) : Bool :=
  (a.major > b.major) ||
    (a.major == b.major &&
      ((a.minor > b.minor) || (a.minor == b.minor && a.patch ≥ b.patch)))

/-- Models `Realm` from `shared/dao/types`: the fields the dao saga and the
lighthouse connection read (`protocol`, `hostname`, `serverName`). -/
structure Realm where
  protocol : String
  hostname : String
  serverName : String
deriving DecidableEq, Repr

/-- Models `Candidate` from `shared/dao/types`: the fields the saga reads
(`domain` and `catalystVersion`). -/
structure Candidate where
  domain : String
  catalystVersion : Version
deriving DecidableEq, Repr

/-- Models `ServerConnectionStatus` from `shared/dao/types`. -/
inductive ServerConnectionStatus where
  | OK
  | UNREACHABLE
deriving DecidableEq, Repr

/-- Models `PingResult`: `status`, and `result?.env.catalystVersion` flattened to
an `Option Version` (`none` when the ping carried no result body). -/
structure PingResult where
  status : ServerConnectionStatus
  catalystVersion : Option Version
deriving DecidableEq, Repr

/-- The saga's environment: redux-store selector results, the query
string, the persistent cache, and the collaborator functions imported from
modules outside this repository, all fixed for one run of `selectRealm`. -/
structure DaoEnv where
  /-- Models `qs.get('realm')` from `document.location.search`; `none` when the
  parameter is absent (`null`). -/
  qsRealm : Option String
  /-- Models `getMinCatalystVersion` meta selector. -/
  minCatalystVersion : Option Version
  /-- Models `getAllCatalystCandidates` selector (after `waitForCandidates`). -/
  allCandidates : List Candidate
  /-- The candidate list stored under `last_realm_candidates_<network>`. -/
  cachedCandidates : List Candidate
  /-- The realm stored under `last_realm_<network>`; `none` when the cache
  is empty. -/
  cachedRealm : Option Realm
  /-- Models `resolveCommsConnectionString` from `./utils/realmToString`
  (collaborator outside this repository). -/
  resolveCommsConnectionString : String → List Candidate → Option Realm
  /-- Models `commsStatusUrl` from the dao index (collaborator). -/
  commsStatusUrl : String → String
  /-- Models `ping` from `./utils/ping` (collaborator). -/
  ping : String → PingResult
  /-- Models `algorithm.pickCandidate` built by `createAlgorithm` from the
  configured (or default) chain (collaborator). -/
  pickCandidate : List Candidate → Int × Int → Option Candidate
  /-- Models `candidateToRealm` from `./utils/realmToString` (collaborator). -/
  candidateToRealm : Candidate → Realm
  /-- Models `parseParcelPosition(qs.get('position') || '0,0')`. -/
  currentUserParcel : Int × Int

/-- Cache key for the last used realm (`getLastRealmCacheKey`). -/
def getLastRealmCacheKey (network : String) : String :=
  "last_realm_" ++ network

/-- Cache key for the last candidate list
(`getLastRealmCandidatesCacheKey`). -/
def getLastRealmCandidatesCacheKey (network : String) : String :=
  "last_realm_candidates_" ++ network

/-- Models `checkValidRealm` (part_005 lines 202-217): for protocol `"v2"` the
realm must have a hostname, the comms status ping must return `OK`, and —
when a minimum catalyst version is configured — the pinged catalyst
version (defaulting to `0.0.0` when the ping body is missing) must be
`gte` the minimum.  Every other protocol is accepted unconditionally. -/
def checkValidRealm (env : DaoEnv) (realm : Realm) : Bool :=
  if realm.protocol = "v2" then
    if realm.hostname.isEmpty then
      false
    else
      let pingResult := env.ping (env.commsStatusUrl realm.hostname)
      let catalystVersion := pingResult.catalystVersion.getD ⟨0, 0, 0⟩
      pingResult.status == ServerConnectionStatus.OK &&
        (env.minCatalystVersion.isNone ||
          semverGte catalystVersion (env.minCatalystVersion.getD ⟨0, 0, 0⟩))
  else
    true

/-- Models `getConfiguredRealm` (part_005 lines 161-172): reads the `realm`
query parameter; when present (and non-empty, JS truthiness), resolves it
against the given candidates and returns it only when resolution succeeds
and `checkValidRealm` accepts it; otherwise logs a warning and returns
`undefined`. -/
def getConfiguredRealm (env : DaoEnv) (candidates : List Candidate) : Option Realm :=
  match env.qsRealm with
  | none => none
  | some realmName =>
    if realmName.isEmpty then
      none
    else
      match env.resolveCommsConnectionString realmName candidates with
      | none => none
      | some realm => if checkValidRealm env realm then some realm else none

/-- Models `pickCatalystRealm` (part_005 lines 62-75).  The generator computes
`candidateToRealm(algorithm.pickCandidate(candidates, parcel))` through
`yield call(...)` but ends without a `return` statement, so the saga's
result value is `undefined`: the computed realm is discarded.  The
embedding evaluates the same expression (bound to `_computed`) and, like
the source, returns `none`. -/
def pickCatalystRealm (env : DaoEnv) (candidates : List Candidate) : Option Realm :=
  let _computed :=
    (env.pickCandidate candidates env.currentUserParcel).map env.candidateToRealm
  none

/-- Result of `selectRealm`: the realm the saga returns, plus an
instrumentation flag recording whether the third tier
(`pickCatalystRealm`, the algorithmic candidate scan) was evaluated.  The
flag reflects JS `||` laziness: the scan runs only when the first two
tiers produced a falsy value. -/
structure SelectRealmResult where
  realm : Option Realm
  scanInvoked : Bool
deriving DecidableEq, Repr

/-- Models `selectRealm` (part_005 lines 141-158): first priority the query
parameter realm validated against dao candidates plus cached candidates,
second priority the realm cached in local storage (accepted as-is),
third priority the algorithmic pick over the dao candidates. -/
def selectRealm (env : DaoEnv) : SelectRealmResult :=
  match getConfiguredRealm env (env.allCandidates ++ env.cachedCandidates) with
  | some realm => { realm := some realm, scanInvoked := false }
  | none =>
    match env.cachedRealm with
    | some realm => { realm := some realm, scanInvoked := false }
    | none =>
      { realm := pickCatalystRealm env env.allCandidates, scanInvoked := true }

/-- Models `filterCandidatesByCatalystVersion` (part_005 lines 174-180): when a
minimum catalyst version is configured, keep the candidates whose
`catalystVersion` is `gte` it; otherwise keep all. -/
def filterCandidatesByCatalystVersion
    (minCatalystVersion : Option Version) (candidates : List Candidate) :
    List Candidate :=
  match minCatalystVersion with
  | some minV => candidates.filter (fun c => semverGte c.catalystVersion minV)
  | none => candidates

/-- The two candidate lists dispatched by `initializeCatalystCandidates`
(`setCatalystCandidates` and `setAddedCatalystCandidates`). -/
structure CatalystCandidatesInit where
  catalystCandidates : List Candidate
  addedCatalystCandidates : List Candidate
deriving DecidableEq, Repr

/-- Models `initializeCatalystCandidates` (part_005 lines 182-200): the fetched
candidates are version-filtered unless `PIN_CATALYST` is set, in which
case they are used as fetched; the added-servers list is empty under
`PIN_CATALYST`, and its fetched statuses are version-filtered.
`fetchStatuses` stands for `fetchCatalystStatuses` applied to the added
server urls (a network collaborator outside this repository). -/
def initializeCatalystCandidates
    (pinCatalyst : Bool) (minCatalystVersion : Option Version)
    (fetched : List Candidate) (addedServers : List String)
    (fetchStatuses : List String → List Candidate) : CatalystCandidatesInit :=
  let filteredCandidates :=
    if pinCatalyst then fetched
    else filterCandidatesByCatalystVersion minCatalystVersion fetched
  let added := if pinCatalyst then [] else addedServers
  let addedCandidates := fetchStatuses added
  let filteredAddedCandidates :=
    filterCandidatesByCatalystVersion minCatalystVersion addedCandidates
  { catalystCandidates := filteredCandidates
    addedCatalystCandidates := filteredAddedCandidates }

end Dao

namespace Lighthouse

/-- Models `Position` from `comms/interface/utils`: the 8-tuple
`[x, y, z, rotX, rotY, rotZ, rotW, immediate]`, with the seven finite
numeric components modelled as `ℚ` and the flag as `Bool`.  Field `x` is
tuple index 0, ..., `rotW` is index 6, `immediate` is index 7. -/
structure Position where
  x : ℚ
  y : ℚ
  z : ℚ
  rotX : ℚ
  rotY : ℚ
  rotZ : ℚ
  rotW : ℚ
  immediate : Bool
deriving DecidableEq, Repr

/-- The `PositionData` protobuf message of `proto/comms_pb`: seven double
fields and a bool field, each written by its setter and read back by its
getter.  Protobuf doubles round-trip finite values exactly, so the binary
layer is modelled as the record itself. -/
structure PositionData where
  positionX : ℚ
  positionY : ℚ
  positionZ : ℚ
  rotationX : ℚ
  rotationY : ℚ
  rotationZ : ℚ
  rotationW : ℚ
  immediate : Bool
deriving DecidableEq, Repr

/-- Models `createPositionData` (LighthouseWorldInstanceConnection.ts lines
472-483): writes tuple slots 0-7 into the protobuf fields. -/
def createPositionData (p : Position) : PositionData :=
  { positionX := p.x
    positionY := p.y
    positionZ := p.z
    rotationX := p.rotX
    rotationY := p.rotY
    rotationZ := p.rotZ
    rotationW := p.rotW
    immediate := p.immediate }

/-- Models `mapToPositionMessage` (lines 402-413): reads the protobuf fields back
into the tuple, slots 0-7. -/
def mapToPositionMessage (positionData : PositionData) : Position :=
  { x := positionData.positionX
    y := positionData.positionY
    z := positionData.positionZ
    rotX := positionData.rotationX
    rotY := positionData.rotationY
    rotZ := positionData.rotationZ
    rotW := positionData.rotationW
    immediate := positionData.immediate }

/-- A thrown JS error, restricted to the fields this module inspects:
`e.message` (`some s` when the value is a string, `none` otherwise) and
`e.responseJson && e.responseJson.status` flattened to an
`Option String`. -/
structure JsError where
  message : Option String
  responseJsonStatus : Option String
deriving DecidableEq, Repr

/-- The error-message prefix recognised by `sendData`. -/
def roomNotJoinedPhrase : String :=
  "cannot send a message in a room not joined"

/-- Models JS `String.prototype.startsWith`: the phrase's character list
is an initial segment of the message's character list (exact for the
ASCII phrase involved here). -/
def strStartsWith (s pre : String) : Bool :=
  s.data.take pre.data.length == pre.data

/-- Models `sendData` (lines 263-275), as a function of the transport
`sendMessage` outcome: a rejection whose `message` is a string starting
with the room-not-joined phrase is swallowed (the send resolves); any
other rejection is rethrown unchanged. -/
def sendData (sendMessageResult : Except JsError Unit) : Except JsError Unit :=
  match sendMessageResult with
  | .ok _ => .ok ()
  | .error e =>
    match e.message with
    | some m => if strStartsWith m roomNotJoinedPhrase then .ok () else .error e
    | none => .error e

/-- An element of the transport's `currentRooms`: either a plain room-id
string or a `Room` object carrying an `id` field. -/
inductive RoomRef where
  | str (id : String)
  | obj (id : String)
deriving DecidableEq, Repr

/-- Models `isSameRoom` (lines 242-244):
`roomIdOrObject === roomId || (typeof roomIdOrObject !== 'string' &&
roomIdOrObject.id === roomId)`. -/
def isSameRoom (roomId : String) (roomIdOrObject : RoomRef) : Bool :=
  match roomIdOrObject with
  | .str s => s == roomId
  | .obj id => id == roomId

/-- The transport calls issued by one `syncRoomsWithPeer` run: the rooms
passed to `joinRoom` and the rooms passed to `leaveRoom`. -/
structure SyncRoomOps where
  joins : List String
  leaves : List String
deriving DecidableEq, Repr

/-- Models `syncRoomsWithPeer` (lines 239-261): `joinRoom` is called for each
desired room with no matching current room (the others map to
`Promise.resolve()`); `leaveRoom` is called for each current room not
desired any more, but only when that current entry is a plain string. -/
def syncRoomsWithPeer (rooms : List String) (currentRooms : List RoomRef) :
    SyncRoomOps :=
  { joins :=
      rooms.filter (fun room => !(currentRooms.any (fun c => isSameRoom room c)))
    leaves :=
      currentRooms.filterMap (fun c =>
        if !(rooms.any (fun room => isSameRoom room c)) then
          match c with
          | .str s => some s
          | .obj _ => none
        else none) }

/-- Models `setTopics` (lines 234-237): stores the desired room list in
`this.rooms` and reconciles against the transport's `currentRooms`. -/
def setTopics (rooms : List String) (currentRooms : List RoomRef) : SyncRoomOps :=
  syncRoomsWithPeer rooms currentRooms

/-- The peer transport, restricted to what the status reports read:
`connectedCount()`. -/
structure PeerT where
  connectedCount : Nat
deriving DecidableEq, Repr

/-- The closed status set of `CommsStatus`. -/
inductive ConnStatus where
  | connecting
  | connected
  | realmFull
  | error
deriving DecidableEq, Repr

/-- One `statusHandler` invocation: the status and the `connectedPeers`
count it carried. -/
structure CommsStatusReport where
  status : ConnStatus
  connectedPeers : Nat
deriving DecidableEq, Repr

/-- Models `connectedPeersCount` (lines 299-301):
`this.peer ? this.peer.connectedCount() : 0`. -/
def connectedPeersCount (peer : Option PeerT) : Nat :=
  match peer with
  | some p => p.connectedCount
  | none => 0

/-- The status chosen by `connect`'s catch block (line 127):
`realm-full` exactly when `e.responseJson && e.responseJson.status ===
'layer_is_full'`, `error` otherwise. -/
def statusOfConnectError (e : JsError) : ConnStatus :=
  if e.responseJsonStatus = some "layer_is_full" then .realmFull else .error

/-- Outcome of one `connect()` call: the status reports emitted (each
paired with the `this.peer` value at the moment of the report), the
returned/thrown result, and whether `awaitConnectionEstablished` was
awaited. -/
structure ConnectOutcome where
  reports : List (CommsStatusReport × Option PeerT)
  result : Except JsError Bool
  awaitedEstablishment : Bool
deriving Repr

/-- Models `connect` (lines 117-132): when the peer already holds live
connections (`connectedCount()` truthy) the establishment await is
skipped; otherwise the transport establishment is awaited and its outcome
(`establish`) decides the path.  Success reports `connected` and returns
`true`; failure reports `realm-full`/`error` per the response body and
rethrows. -/
def connect (peer : PeerT) (establish : Except JsError Unit) : ConnectOutcome :=
  if peer.connectedCount ≠ 0 then
    { reports := [(⟨.connected, connectedPeersCount (some peer)⟩, some peer)]
      result := .ok true
      awaitedEstablishment := false }
  else
    match establish with
    | .ok _ =>
      { reports := [(⟨.connected, connectedPeersCount (some peer)⟩, some peer)]
        result := .ok true
        awaitedEstablishment := true }
    | .error e =>
      { reports :=
          [(⟨statusOfConnectError e, connectedPeersCount (some peer)⟩, some peer)]
        result := .error e
        awaitedEstablishment := true }

/-- Models `initializePeer` (lines 287-297): reports `connecting` with the
connected-peer count of the peer field as it stands before the new peer is
assigned (`none` when called from the constructor, where `this.peer` is
still unset). -/
def initializePeerReports (peerBefore : Option PeerT) :
    List (CommsStatusReport × Option PeerT) :=
  [(⟨.connecting, connectedPeersCount peerBefore⟩, peerBefore)]

/-- Models `changeRealm` (lines 134-147): reports `connecting` against the old
peer, disposes it (the field keeps pointing at the disposed peer),
re-runs `initializePeer` (its report still sees the old peer), then
`connect` against the fresh peer. -/
def changeRealmReports (oldPeer : PeerT) (newPeer : PeerT)
    (establish : Except JsError Unit) :
    List (CommsStatusReport × Option PeerT) :=
  (⟨.connecting, connectedPeersCount (some oldPeer)⟩, some oldPeer) ::
    initializePeerReports (some oldPeer) ++ (connect newPeer establish).reports

end Lighthouse

namespace Lighthouse

/-- Models `ProfileData.ProfileType` of the protobuf. -/
inductive PbProfileType where
  | LOCAL
  | DEPLOYED
deriving DecidableEq, Repr

/-- Models `ProfileType` from `shared/profiles/types`. -/
inductive ProfileType where
  | LOCAL
  | DEPLOYED
deriving DecidableEq, Repr

/-- The payload variants of the `CommsMessage` protobuf, as discriminated
by `getDataCase()`.  `unknownData code` models any data-case value outside
the seven known ones (including `DATA_NOT_SET`), which the switch sends to
its `default` branch. -/
inductive CommsData where
  | chatData (messageId : String) (text : String)
  | positionData (d : PositionData)
  | sceneData (sceneId : String) (text : String)
  | profileData (userId : String) (profileVersion : String) (profileType : PbProfileType)
  | voiceData (encodedSamples : List Nat) (index : Nat)
  | profileRequestData (userId : String) (profileVersion : String)
  | profileResponseData (serializedProfile : String)
  | unknownData (code : Nat)
deriving DecidableEq, Repr

/-- A decoded `CommsMessage`: its `time` field and its data case. -/
structure CommsMessage where
  time : Nat
  data : CommsData
deriving DecidableEq, Repr

/-- The payload shapes produced by the `mapToPackage*` helpers.
`profileResponse` carries the profile parsed by `JSON.parse`, represented
by its source string (the parse's success or failure is modelled by the
`jsonParseOk` parameter of the callback, the JSON grammar itself being
outside this module). -/
inductive PackageData where
  | chat (id : String) (text : String)
  | position (p : Position)
  | scene (id : String) (text : String)
  | profile (user : String) (version : String) (ptype : ProfileType)
  | voice (encoded : List Nat) (index : Nat)
  | profileRequest (userId : String) (version : Option String)
  | profileResponse (serializedProfile : String)
deriving DecidableEq, Repr

/-- The `Package` envelope (`{sender, time, type, data}`); `type` is the
`PackageType` string literal passed at the call site. -/
structure Package where
  sender : String
  time : Nat
  type : String
  data : PackageData
deriving DecidableEq, Repr

/-- Models `createPackage` (lines 393-400). -/
def createPackage (sender : String) (commsMessage : CommsMessage)
    (type : String) (data : PackageData) : Package :=
  { sender := sender
    time := commsMessage.time
    type := type
    data := data }

/-- Models `mapToPackageChat` (lines 415-420). -/
def mapToPackageChat (messageId : String) (text : String) : PackageData :=
  .chat messageId text

/-- Models `mapToPackageScene` (lines 422-427). -/
def mapToPackageScene (sceneId : String) (text : String) : PackageData :=
  .scene sceneId text

/-- Models `mapToPackageProfileType` (lines 437-439). -/
def mapToPackageProfileType (profileType : PbProfileType) : ProfileType :=
  match profileType with
  | .LOCAL => .LOCAL
  | .DEPLOYED => .DEPLOYED

/-- Models `mapToPackageProfile` (lines 429-435). -/
def mapToPackageProfile (userId : String) (profileVersion : String)
    (profileType : PbProfileType) : PackageData :=
  .profile userId profileVersion (mapToPackageProfileType profileType)

/-- Models `mapToPackageProfileRequest` (lines 441-447): an empty stored version
string maps to `undefined`. -/
def mapToPackageProfileRequest (userId : String) (profileVersion : String) :
    PackageData :=
  .profileRequest userId (if profileVersion ≠ "" then some profileVersion else none)

/-- Models `mapToPackageProfileResponse` (lines 449-453):
`JSON.parse(profileResponseData.getSerializedProfile())`.  `JSON.parse`
throws on a string that is not valid JSON; `jsonParseOk` models which
strings parse, and a throw is `none` (propagated by the caller as an
exception during argument evaluation, before the handler is invoked). -/
def mapToPackageProfileResponse (jsonParseOk : String → Bool)
    (serializedProfile : String) : Option PackageData :=
  if jsonParseOk serializedProfile then some (.profileResponse serializedProfile)
  else none

/-- Models `mapToPackageVoice` (lines 455-458): an index of `0` (old voice-chat
implementations) is replaced by the packet's `sequenceId`. -/
def mapToPackageVoice (encoded : List Nat) (index : Nat) (fallbackIndex : Nat) :
    PackageData :=
  .voice encoded (if index == 0 then fallbackIndex else index)

/-- The seven registered per-kind handlers of the connection.  `scene`
stands for `sceneMessageHandler`. -/
inductive HandlerKind where
  | chat
  | position
  | scene
  | profile
  | voice
  | profileRequest
  | profileResponse
deriving DecidableEq, Repr

/-- Log lines emitted by `peerCallback`: the unknown-type warning of the
switch's `default` branch and the catch-all processing error. -/
inductive LogEntry where
  | warnUnknownType (code : Nat)
  | errorProcessing (sender : String) (room : String)
deriving DecidableEq, Repr

/-- Everything observable one `peerCallback` invocation does: the handler
invocations (handler kind paired with the delivered package), the
`peer.setPeerPosition` calls, and the log lines. -/
structure PeerCallbackOutput where
  handlers : List (HandlerKind × Package)
  setPeerPositionCalls : List (String × (ℚ × ℚ × ℚ))
  logs : List LogEntry
deriving DecidableEq, Repr

/-- The body of `peerCallback`'s `try` block (lines 327-386), given the
result of `CommsMessage.deserializeBinary(payload)` (`none` models a
deserialization throw, propagated as `.error`) and the `jsonParseOk`
model of `JSON.parse`.  Each known data case invokes exactly its handler,
except that a profile-response whose serialized profile fails to parse
throws while `mapToPackageProfileResponse` evaluates the handler's
argument — before `profileResponseHandler` runs — and the throw is
propagated as `.error`; the `default` case logs a warning and invokes no
handler. -/
def peerCallbackBody (jsonParseOk : String → Bool) (sender : String)
    (payload : Option CommsMessage) (sequenceId : Nat) :
    Except Unit PeerCallbackOutput :=
  match payload with
  | none => .error ()
  | some commsMessage =>
    match commsMessage.data with
    | .chatData messageId text =>
      .ok { handlers :=
              [(.chat, createPackage sender commsMessage "chat"
                  (mapToPackageChat messageId text))]
            setPeerPositionCalls := []
            logs := [] }
    | .positionData d =>
      let positionMessage := mapToPositionMessage d
      .ok { handlers :=
              [(.position, createPackage sender commsMessage "position"
                  (.position positionMessage))]
            setPeerPositionCalls :=
              [(sender, (positionMessage.x, positionMessage.y, positionMessage.z))]
            logs := [] }
    | .sceneData sceneId text =>
      .ok { handlers :=
              [(.scene, createPackage sender commsMessage "chat"
                  (mapToPackageScene sceneId text))]
            setPeerPositionCalls := []
            logs := [] }
    | .profileData userId profileVersion profileType =>
      .ok { handlers :=
              [(.profile, createPackage sender commsMessage "profile"
                  (mapToPackageProfile userId profileVersion profileType))]
            setPeerPositionCalls := []
            logs := [] }
    | .voiceData encodedSamples index =>
      .ok { handlers :=
              [(.voice, createPackage sender commsMessage "voice"
                  (mapToPackageVoice encodedSamples index sequenceId))]
            setPeerPositionCalls := []
            logs := [] }
    | .profileRequestData userId profileVersion =>
      .ok { handlers :=
              [(.profileRequest, createPackage sender commsMessage "profileRequest"
                  (mapToPackageProfileRequest userId profileVersion))]
            setPeerPositionCalls := []
            logs := [] }
    | .profileResponseData serializedProfile =>
      match mapToPackageProfileResponse jsonParseOk serializedProfile with
      | none => .error ()
      | some data =>
        .ok { handlers :=
                [(.profileResponse,
                  createPackage sender commsMessage "profileResponse" data)]
              setPeerPositionCalls := []
              logs := [] }
    | .unknownData code =>
      .ok { handlers := []
            setPeerPositionCalls := []
            logs := [.warnUnknownType code] }

/-- Models `peerCallback` (lines 326-390): the `try` body wrapped in the
catch-all that logs the processing error and returns normally — the
callback itself never throws. -/
def peerCallback (jsonParseOk : String → Bool) (sender : String) (room : String)
    (payload : Option CommsMessage) (sequenceId : Nat) : PeerCallbackOutput :=
  match peerCallbackBody jsonParseOk sender payload sequenceId with
  | .ok out => out
  | .error _ =>
    { handlers := []
      setPeerPositionCalls := []
      logs := [.errorProcessing sender room] }

end Lighthouse

/-! Concrete instances used by the closed counterexample and witness
theorems below. -/

/-- A candidate at catalyst version 1.0.0. -/
def candA : Dao.Candidate := ⟨"a.example.org", ⟨1, 0, 0⟩⟩

/-- A candidate at catalyst version 0.5.0. -/
def candB : Dao.Candidate := ⟨"b.example.org", ⟨0, 5, 0⟩⟩

/-- The realm the query parameter resolves to in the instances below. -/
def realmQ : Dao.Realm := ⟨"v1", "q.example.org", "query-realm"⟩

/-- The realm stored in the persistent cache in the instances below. -/
def realmCached : Dao.Realm := ⟨"v1", "c.example.org", "cached-realm"⟩

/-- An environment where both a valid query-parameter realm and a cached
realm exist. -/
def envQueryAndCache : Dao.DaoEnv :=
  { qsRealm := some "query-realm"
    minCatalystVersion := none
    allCandidates := [candA]
    cachedCandidates := [candB]
    cachedRealm := some realmCached
    resolveCommsConnectionString := fun name _ =>
      if name = "query-realm" then some realmQ else none
    commsStatusUrl := fun hostname => hostname
    ping := fun _ => ⟨.OK, none⟩
    pickCandidate := fun candidates _ => candidates.head?
    candidateToRealm := fun c => ⟨"v2", c.domain, c.domain⟩
    currentUserParcel := (0, 0) }

/-- An environment with no query parameter and an empty realm cache, so
only the third selection tier can produce a realm. -/
def envScanOnly : Dao.DaoEnv :=
  { envQueryAndCache with
    qsRealm := none
    cachedRealm := none
    cachedCandidates := [] }

/-- Helper for C10: every report of `initializePeerReports` carries the
count of the peer field at the moment of the report. -/
lemma initializePeerReports_count (peerBefore : Option Lighthouse.PeerT) :
    ∀ rep ∈ Lighthouse.initializePeerReports peerBefore,
      rep.1.connectedPeers = Lighthouse.connectedPeersCount rep.2 := by
  rintro rep hrep
  simp only [Lighthouse.initializePeerReports, List.mem_singleton] at hrep
  subst hrep
  rfl

/-- Helper for C10: every report of `connect` carries the count of the
peer field at the moment of the report. -/
lemma connect_reports_count (peer : Lighthouse.PeerT)
    (establish : Except Lighthouse.JsError Unit) :
    ∀ rep ∈ (Lighthouse.connect peer establish).reports,
      rep.1.connectedPeers = Lighthouse.connectedPeersCount rep.2 := by
  rintro rep hrep
  by_cases h : peer.connectedCount ≠ 0
  · simp only [Lighthouse.connect, if_pos h, List.mem_singleton] at hrep
    subst hrep; rfl
  · cases establish with
    | ok u =>
      simp only [Lighthouse.connect, if_neg h, List.mem_singleton] at hrep
      subst hrep; rfl
    | error e =>
      simp only [Lighthouse.connect, if_neg h, List.mem_singleton] at hrep
      subst hrep; rfl

/-- Claim C1: `selectRealm` evaluates the three tiers in order — a valid
query-parameter realm (resolved against dao candidates plus cached
candidates) always wins, even over an existing cached realm; with no
query parameter, a cached realm is returned as-is without invoking the
algorithmic candidate scan; only when both fail does the result come from
the third tier; a query-parameter realm that fails `checkValidRealm` is
not used, and for protocol `"v2"` a failing reachability ping makes
`checkValidRealm` reject. -/
theorem selectRealm_tier_priority (env : Dao.DaoEnv) :
    (∀ r, Dao.getConfiguredRealm env (env.allCandidates ++ env.cachedCandidates) = some r →
        Dao.selectRealm env = ⟨some r, false⟩) ∧
    (env.qsRealm = none → ∀ r, env.cachedRealm = some r →
        Dao.selectRealm env = ⟨some r, false⟩) ∧
    (Dao.getConfiguredRealm env (env.allCandidates ++ env.cachedCandidates) = none →
        env.cachedRealm = none →
        Dao.selectRealm env = ⟨Dao.pickCatalystRealm env env.allCandidates, true⟩) ∧
    (∀ name realm, env.qsRealm = some name → name.isEmpty = false →
        env.resolveCommsConnectionString name (env.allCandidates ++ env.cachedCandidates) =
          some realm →
        Dao.checkValidRealm env realm = false →
        Dao.getConfiguredRealm env (env.allCandidates ++ env.cachedCandidates) = none) ∧
    (∀ realm : Dao.Realm, realm.protocol = "v2" →
        (env.ping (env.commsStatusUrl realm.hostname)).status ≠
          Dao.ServerConnectionStatus.OK →
        Dao.checkValidRealm env realm = false) := by
  refine ⟨?_, ?_, ?_, ?_, ?_⟩
  · intro r h
    simp [Dao.selectRealm, h]
  · intro hqs r hc
    simp [Dao.selectRealm, Dao.getConfiguredRealm, hqs, hc]
  · intro h1 h2
    simp [Dao.selectRealm, h1, h2]
  · intro name realm hqs hne hres hval
    simp [Dao.getConfiguredRealm, hqs, hne, hres, hval]
  · intro realm hproto hping
    by_cases hh : realm.hostname.isEmpty
    · simp [Dao.checkValidRealm, hproto, hh]
    · cases hst : (env.ping (env.commsStatusUrl realm.hostname)).status with
      | OK => exact absurd hst hping
      | UNREACHABLE => simp [Dao.checkValidRealm, hproto, hh, hst]

/-- Witness for C1: in `envQueryAndCache` the query realm is selected
over the existing cached realm, without invoking the candidate scan. -/
theorem selectRealm_tier_priority_witness :
    Dao.selectRealm envQueryAndCache = ⟨some realmQ, false⟩ :=
  (selectRealm_tier_priority envQueryAndCache).1 realmQ (by decide)

/-- Claim C2 (code bug): with no query parameter and an empty cache,
`selectRealm` falls to the third tier, the algorithm picks a candidate
and `candidateToRealm` produces a realm — yet `selectRealm` returns
`none`, because `pickCatalystRealm` ends without a `return` statement and
the computed realm is discarded.  The caller then always raises the fatal
"Couldn't select a suitable realm to join." error. -/
theorem selectRealm_scan_result_discarded :
    envScanOnly.allCandidates ≠ [] ∧
    (envScanOnly.pickCandidate envScanOnly.allCandidates
        envScanOnly.currentUserParcel).map envScanOnly.candidateToRealm =
      some ⟨"v2", "a.example.org", "a.example.org"⟩ ∧
    Dao.selectRealm envScanOnly = ⟨none, true⟩ :=
  ⟨by decide, rfl, rfl⟩

/-- Claim C3: decoding the encoded binary position yields exactly the
original tuple — the seven numeric components and the "immediate" flag
round-trip losslessly through `createPositionData` and
`mapToPositionMessage`. -/
theorem position_roundtrip (p : Lighthouse.Position) :
    Lighthouse.mapToPositionMessage (Lighthouse.createPositionData p) = p :=
  rfl

/-- Claim C4: a transport rejection whose message is a string starting
with the room-not-joined phrase is swallowed by `sendData` (the call
resolves); every other rejection propagates unchanged; a successful send
resolves. -/
theorem sendData_swallows_room_not_joined :
    (∀ (e : Lighthouse.JsError) (m : String), e.message = some m →
        Lighthouse.strStartsWith m Lighthouse.roomNotJoinedPhrase = true →
        Lighthouse.sendData (.error e) = .ok ()) ∧
    (∀ e : Lighthouse.JsError,
        (∀ m, e.message = some m →
            Lighthouse.strStartsWith m Lighthouse.roomNotJoinedPhrase = false) →
        Lighthouse.sendData (.error e) = .error e) ∧
    (∀ u : Unit, Lighthouse.sendData (.ok u) = .ok ()) := by
  refine ⟨?_, ?_, fun u => rfl⟩
  · intro e m hm hs
    simp [Lighthouse.sendData, hm, hs]
  · intro e h
    cases he : e.message with
    | none => simp [Lighthouse.sendData, he]
    | some m => simp [Lighthouse.sendData, he, h m he]

/-- Witness for C4: the room-not-joined rejection is swallowed; a plain
network failure and a rejection with a non-string message both
propagate. -/
theorem sendData_swallows_room_not_joined_witness :
    Lighthouse.sendData
        (.error ⟨some "cannot send a message in a room not joined: blue", none⟩) =
      .ok () ∧
    Lighthouse.sendData (.error ⟨some "network failure", none⟩) =
      .error ⟨some "network failure", none⟩ ∧
    Lighthouse.sendData (.error ⟨none, none⟩) = .error ⟨none, none⟩ :=
  ⟨sendData_swallows_room_not_joined.1 _ _ rfl (by decide),
   sendData_swallows_room_not_joined.2.1 _
     (fun m hm => by injection hm with h; cases h; decide),
   sendData_swallows_room_not_joined.2.1 _ (fun m hm => by cases hm)⟩

/-- Claim C5: room reconciliation is idempotent — when the transport's
joined-room set already reflects the desired list (every desired room has
a matching current room and every current room is still desired),
`setTopics` issues zero `joinRoom` and zero `leaveRoom` calls. -/
theorem setTopics_idempotent (rooms : List String)
    (currentRooms : List Lighthouse.RoomRef)
    (hJoined : ∀ room ∈ rooms,
        currentRooms.any (fun c => Lighthouse.isSameRoom room c) = true)
    (hNoStale : ∀ c ∈ currentRooms,
        rooms.any (fun room => Lighthouse.isSameRoom room c) = true) :
    (Lighthouse.setTopics rooms currentRooms).joins = [] ∧
    (Lighthouse.setTopics rooms currentRooms).leaves = [] := by
  constructor
  · rw [Lighthouse.setTopics, Lighthouse.syncRoomsWithPeer]
    rw [List.filter_eq_nil_iff]
    intro room hroom
    simp [hJoined room hroom]
  · rw [Lighthouse.setTopics, Lighthouse.syncRoomsWithPeer]
    rw [List.filterMap_eq_nil_iff]
    intro c hc
    simp [hNoStale c hc]

/-- Witness for C5: re-running `setTopics ["a"]` against a transport
already joined to room `"a"` issues no joins and no leaves. -/
theorem setTopics_idempotent_witness :
    (Lighthouse.setTopics ["a"] [.str "a"]).joins = [] ∧
    (Lighthouse.setTopics ["a"] [.str "a"]).leaves = [] :=
  setTopics_idempotent ["a"] [.str "a"] (by decide) (by decide)

/-- Claim C6: with a minimum catalyst version configured and no pin
override, `initializeCatalystCandidates` keeps exactly the fetched
candidates whose version is `gte` the minimum; with the pin override
active, version filtering of the fetched candidates is skipped. -/
theorem catalyst_version_filtering (minV : Dao.Version)
    (fetched : List Dao.Candidate) (addedServers : List String)
    (fetchStatuses : List String → List Dao.Candidate) :
    (∀ c, c ∈ (Dao.initializeCatalystCandidates false (some minV) fetched
          addedServers fetchStatuses).catalystCandidates ↔
        (c ∈ fetched ∧ Dao.semverGte c.catalystVersion minV = true)) ∧
    (Dao.initializeCatalystCandidates true (some minV) fetched
        addedServers fetchStatuses).catalystCandidates = fetched := by
  constructor
  · intro c
    simp [Dao.initializeCatalystCandidates, Dao.filterCandidatesByCatalystVersion,
      List.mem_filter]
  · rfl

/-- Claim C7: `connect` short-circuits to a `connected` report and a
successful return, without awaiting establishment, whenever the peer
already holds live connections; on establishment failure it reports
`realm-full` exactly when the response body says `layer_is_full` and
`error` in every other case, and rethrows the error either way. -/
theorem connect_status_and_rethrow (peer : Lighthouse.PeerT)
    (establish : Except Lighthouse.JsError Unit) :
    (peer.connectedCount ≠ 0 →
        (Lighthouse.connect peer establish).reports =
          [(⟨.connected, peer.connectedCount⟩, some peer)] ∧
        (Lighthouse.connect peer establish).result = .ok true ∧
        (Lighthouse.connect peer establish).awaitedEstablishment = false) ∧
    (∀ e, peer.connectedCount = 0 → establish = .error e →
        (Lighthouse.connect peer establish).reports =
          [(⟨Lighthouse.statusOfConnectError e, peer.connectedCount⟩, some peer)] ∧
        ((Lighthouse.statusOfConnectError e = .realmFull) ↔
          e.responseJsonStatus = some "layer_is_full") ∧
        ((Lighthouse.statusOfConnectError e = .error) ↔
          e.responseJsonStatus ≠ some "layer_is_full") ∧
        (Lighthouse.connect peer establish).result = .error e) := by
  constructor
  · intro h
    refine ⟨?_, ?_, ?_⟩ <;> simp [Lighthouse.connect, h, Lighthouse.connectedPeersCount]
  · intro e hcnt hest
    subst hest
    have hc : ¬peer.connectedCount ≠ 0 := by simp [hcnt]
    refine ⟨?_, ?_, ?_, ?_⟩
    · simp [Lighthouse.connect, hc, Lighthouse.connectedPeersCount]
    · by_cases hs : e.responseJsonStatus = some "layer_is_full" <;>
        simp [Lighthouse.statusOfConnectError, hs]
    · by_cases hs : e.responseJsonStatus = some "layer_is_full" <;>
        simp [Lighthouse.statusOfConnectError, hs]
    · simp [Lighthouse.connect, hc]

/-- Witness for C7: a peer with three live connections short-circuits;
a capacity rejection reports `realm-full` and rethrows. -/
theorem connect_status_and_rethrow_witness :
    ((Lighthouse.connect ⟨3⟩ (.ok ())).awaitedEstablishment = false) ∧
    (Lighthouse.statusOfConnectError ⟨none, some "layer_is_full"⟩ = .realmFull) ∧
    ((Lighthouse.connect ⟨0⟩ (.error ⟨none, some "layer_is_full"⟩)).result =
      .error ⟨none, some "layer_is_full"⟩) :=
  ⟨((connect_status_and_rethrow ⟨3⟩ (.ok ())).1 (by decide)).2.2,
   (((connect_status_and_rethrow ⟨0⟩ (.error ⟨none, some "layer_is_full"⟩)).2
      ⟨none, some "layer_is_full"⟩ rfl rfl).2.1).mpr rfl,
   (((connect_status_and_rethrow ⟨0⟩ (.error ⟨none, some "layer_is_full"⟩)).2
      ⟨none, some "layer_is_full"⟩ rfl rfl).2.2).2⟩

/-- Counterexample for C8: a decoded scene-data message is delivered to
`sceneMessageHandler` in a package whose `type` field is `"chat"`, not
`"scene"` — the claim that the envelope type always equals the message's
kind fails at this input. -/
theorem package_type_scene_counterexample :
    (Lighthouse.peerCallback (fun _ => true) "peerA" "room1"
        (some ⟨7, .sceneData "sceneX" "hello"⟩) 0).handlers =
      [(.scene,
        { sender := "peerA", time := 7, type := "chat",
          data := .scene "sceneX" "hello" })] ∧
    ("chat" : String) ≠ "scene" := by
  decide

/-- Claim C8 (amended): every delivered package carries the type literal
of its call site — `"chat"` for chat data, `"position"` for position
data, `"chat"` (not `"scene"`) for scene data, `"profile"`, `"voice"`,
`"profileRequest"` and `"profileResponse"` for the remaining kinds. -/
theorem package_type_per_kind (jsonParseOk : String → Bool) (sender room : String)
    (m : Lighthouse.CommsMessage) (seq : Nat) :
    ∀ hk pkg,
      (hk, pkg) ∈ (Lighthouse.peerCallback jsonParseOk sender room (some m) seq).handlers →
      pkg.type =
        match m.data with
        | .chatData _ _ => "chat"
        | .positionData _ => "position"
        | .sceneData _ _ => "chat"
        | .profileData _ _ _ => "profile"
        | .voiceData _ _ => "voice"
        | .profileRequestData _ _ => "profileRequest"
        | .profileResponseData _ => "profileResponse"
        | .unknownData _ => "unreachable" := by
  obtain ⟨t, d⟩ := m
  intro hk pkg hmem
  cases d with
  | profileResponseData a =>
    by_cases hp : jsonParseOk a = true
    · simp [Lighthouse.peerCallback, Lighthouse.peerCallbackBody,
        Lighthouse.mapToPackageProfileResponse, hp,
        Lighthouse.createPackage] at hmem
      simp [hmem.2, Lighthouse.createPackage]
    · simp only [Bool.not_eq_true] at hp
      simp [Lighthouse.peerCallback, Lighthouse.peerCallbackBody,
        Lighthouse.mapToPackageProfileResponse, hp] at hmem
  | chatData a b =>
    simp [Lighthouse.peerCallback, Lighthouse.peerCallbackBody,
      Lighthouse.createPackage] at hmem
    simp [hmem.2, Lighthouse.createPackage]
  | positionData d =>
    simp [Lighthouse.peerCallback, Lighthouse.peerCallbackBody,
      Lighthouse.createPackage] at hmem
    simp [hmem.2, Lighthouse.createPackage]
  | sceneData a b =>
    simp [Lighthouse.peerCallback, Lighthouse.peerCallbackBody,
      Lighthouse.createPackage] at hmem
    simp [hmem.2, Lighthouse.createPackage]
  | profileData a b c =>
    simp [Lighthouse.peerCallback, Lighthouse.peerCallbackBody,
      Lighthouse.createPackage] at hmem
    simp [hmem.2, Lighthouse.createPackage]
  | voiceData a b =>
    simp [Lighthouse.peerCallback, Lighthouse.peerCallbackBody,
      Lighthouse.createPackage] at hmem
    simp [hmem.2, Lighthouse.createPackage]
  | profileRequestData a b =>
    simp [Lighthouse.peerCallback, Lighthouse.peerCallbackBody,
      Lighthouse.createPackage] at hmem
    simp [hmem.2, Lighthouse.createPackage]
  | unknownData code =>
    simp [Lighthouse.peerCallback, Lighthouse.peerCallbackBody] at hmem

/-- Witness for C8 (amended): the concrete scene-data message above is
delivered with type `"chat"`. -/
theorem package_type_per_kind_witness :
    ({ sender := "peerA", time := 7, type := "chat",
       data := .scene "sceneX" "hello" } : Lighthouse.Package).type = "chat" :=
  package_type_per_kind (fun _ => true) "peerA" "room1"
    ⟨7, .sceneData "sceneX" "hello"⟩ 0 .scene _ (by decide)

/-- Counterexample for C9: a profile-response message — a recognized
kind — whose serialized profile is not valid JSON invokes zero handlers,
not one: `JSON.parse` throws while the handler's argument is evaluated,
before `profileResponseHandler` runs, and the catch-all logs the
processing error instead. -/
theorem peerCallback_profileResponse_parse_throw :
    (Lighthouse.peerCallback (fun _ => false) "peerA" "room1"
        (some ⟨1, .profileResponseData "not json"⟩) 0).handlers = [] ∧
    (Lighthouse.peerCallback (fun _ => false) "peerA" "room1"
        (some ⟨1, .profileResponseData "not json"⟩) 0).logs =
      [.errorProcessing "peerA" "room1"] :=
  ⟨rfl, rfl⟩

/-- Claim C9 (amended): one `peerCallback` invocation calls at most one
registered handler; an unknown discriminant is logged and dropped with no
handler call; a decode failure is caught, logged and dropped with no
handler call; a profile-response whose serialized profile fails JSON
parsing throws before its handler is invoked and is likewise caught,
logged and dropped with no handler call; every other recognized kind —
and a profile-response that parses — invokes exactly one handler.  The
callback returns normally in every case, by construction of the
catch-all. -/
theorem peerCallback_single_dispatch (jsonParseOk : String → Bool)
    (sender room : String) (payload : Option Lighthouse.CommsMessage) (seq : Nat) :
    ((Lighthouse.peerCallback jsonParseOk sender room payload seq).handlers.length ≤ 1) ∧
    (∀ t code, payload = some ⟨t, .unknownData code⟩ →
        (Lighthouse.peerCallback jsonParseOk sender room payload seq).handlers = [] ∧
        (Lighthouse.peerCallback jsonParseOk sender room payload seq).logs =
          [.warnUnknownType code]) ∧
    (payload = none →
        (Lighthouse.peerCallback jsonParseOk sender room payload seq).handlers = [] ∧
        (Lighthouse.peerCallback jsonParseOk sender room payload seq).logs =
          [.errorProcessing sender room]) ∧
    (∀ t s, payload = some ⟨t, .profileResponseData s⟩ → jsonParseOk s = false →
        (Lighthouse.peerCallback jsonParseOk sender room payload seq).handlers = [] ∧
        (Lighthouse.peerCallback jsonParseOk sender room payload seq).logs =
          [.errorProcessing sender room]) ∧
    (∀ m, payload = some m → (∀ code, m.data ≠ .unknownData code) →
        (∀ s, m.data = .profileResponseData s → jsonParseOk s = true) →
        (Lighthouse.peerCallback jsonParseOk sender room payload seq).handlers.length = 1) := by
  cases payload with
  | none =>
    refine ⟨?_, ?_, ?_, ?_, ?_⟩ <;>
      simp [Lighthouse.peerCallback, Lighthouse.peerCallbackBody]
  | some m =>
    obtain ⟨t, d⟩ := m
    cases d with
    | unknownData code =>
      refine ⟨?_, ?_, ?_, ?_, ?_⟩
      · simp [Lighthouse.peerCallback, Lighthouse.peerCallbackBody]
      · intro t' code' h
        injection h with h
        injection h with h1 h2
        injection h2 with h2
        subst h2
        simp [Lighthouse.peerCallback, Lighthouse.peerCallbackBody]
      · intro h; cases h
      · intro t' s h
        injection h with h
        injection h with h1 h2
        cases h2
      · intro m' hm hne hpr
        injection hm with hm
        subst hm
        exact absurd rfl (hne code)
    | profileResponseData a =>
      refine ⟨?_, ?_, ?_, ?_, ?_⟩
      · by_cases hp : jsonParseOk a = true
        · simp [Lighthouse.peerCallback, Lighthouse.peerCallbackBody,
            Lighthouse.mapToPackageProfileResponse, hp]
        · simp only [Bool.not_eq_true] at hp
          simp [Lighthouse.peerCallback, Lighthouse.peerCallbackBody,
            Lighthouse.mapToPackageProfileResponse, hp]
      · intro t' code' h
        injection h with h
        injection h with h1 h2
        cases h2
      · intro h; cases h
      · intro t' s h hfalse
        injection h with h
        injection h with h1 h2
        injection h2 with h2
        subst h2
        simp [Lighthouse.peerCallback, Lighthouse.peerCallbackBody,
          Lighthouse.mapToPackageProfileResponse, hfalse]
      · intro m' hm hne hpr
        injection hm with hm
        subst hm
        have hp : jsonParseOk a = true := hpr a rfl
        simp [Lighthouse.peerCallback, Lighthouse.peerCallbackBody,
          Lighthouse.mapToPackageProfileResponse, hp]
    | chatData a b =>
      refine ⟨?_, ?_, ?_, ?_, ?_⟩ <;>
        simp [Lighthouse.peerCallback, Lighthouse.peerCallbackBody]
    | positionData d =>
      refine ⟨?_, ?_, ?_, ?_, ?_⟩ <;>
        simp [Lighthouse.peerCallback, Lighthouse.peerCallbackBody]
    | sceneData a b =>
      refine ⟨?_, ?_, ?_, ?_, ?_⟩ <;>
        simp [Lighthouse.peerCallback, Lighthouse.peerCallbackBody]
    | profileData a b c =>
      refine ⟨?_, ?_, ?_, ?_, ?_⟩ <;>
        simp [Lighthouse.peerCallback, Lighthouse.peerCallbackBody]
    | voiceData a b =>
      refine ⟨?_, ?_, ?_, ?_, ?_⟩ <;>
        simp [Lighthouse.peerCallback, Lighthouse.peerCallbackBody]
    | profileRequestData a b =>
      refine ⟨?_, ?_, ?_, ?_, ?_⟩ <;>
        simp [Lighthouse.peerCallback, Lighthouse.peerCallbackBody]

/-- Witness for C9 (amended): an unknown discriminant (`99`) is logged
and dropped with no handler invocation. -/
theorem peerCallback_single_dispatch_witness :
    (Lighthouse.peerCallback (fun _ => true) "peerA" "room1"
        (some ⟨1, .unknownData 99⟩) 0).handlers = [] ∧
    (Lighthouse.peerCallback (fun _ => true) "peerA" "room1"
        (some ⟨1, .unknownData 99⟩) 0).logs = [.warnUnknownType 99] :=
  (peerCallback_single_dispatch (fun _ => true) "peerA" "room1"
      (some ⟨1, .unknownData 99⟩) 0).2.1 1 99 rfl

/-- Claim C10: every status report emitted by peer initialization, by
`connect` (success and failure), and by `changeRealm` carries a
`connectedPeers` count equal to `connectedPeersCount` of the peer field
at the moment of the report (`0` when no peer object exists yet). -/
theorem status_reports_carry_connected_count :
    (∀ peerBefore : Option Lighthouse.PeerT,
        ∀ rep ∈ Lighthouse.initializePeerReports peerBefore,
          rep.1.connectedPeers = Lighthouse.connectedPeersCount rep.2) ∧
    (∀ (peer : Lighthouse.PeerT) (establish : Except Lighthouse.JsError Unit),
        ∀ rep ∈ (Lighthouse.connect peer establish).reports,
          rep.1.connectedPeers = Lighthouse.connectedPeersCount rep.2) ∧
    (∀ (oldPeer newPeer : Lighthouse.PeerT)
        (establish : Except Lighthouse.JsError Unit),
        ∀ rep ∈ Lighthouse.changeRealmReports oldPeer newPeer establish,
          rep.1.connectedPeers = Lighthouse.connectedPeersCount rep.2) := by
  refine ⟨initializePeerReports_count, connect_reports_count, ?_⟩
  rintro oldPeer newPeer establish rep hrep
  rw [Lighthouse.changeRealmReports] at hrep
  rcases List.mem_cons.mp hrep with h | h
  · subst h; rfl
  · rcases List.mem_append.mp h with h' | h'
    · exact initializePeerReports_count (some oldPeer) rep h'
    · exact connect_reports_count newPeer establish rep h'

/-- Witness for C10: the constructor-time `initializePeer` report, where
no peer object exists yet, carries count `0 = connectedPeersCount none`. -/
theorem status_reports_carry_connected_count_witness :
    ((⟨Lighthouse.ConnStatus.connecting, 0⟩ :
        Lighthouse.CommsStatusReport)).connectedPeers =
      Lighthouse.connectedPeersCount (none : Option Lighthouse.PeerT) :=
  status_reports_carry_connected_count.1 none
    (⟨Lighthouse.ConnStatus.connecting, 0⟩, none) (by decide)
